import Mathlib

/-!
Shallow embedding of the asynchronous job engine of the Converty repository:
job records and their database operations (src/db/jobs.rs), the queue service
(src/services/queue.rs and src/services/queue/processor.rs), the job routes
(src/routes/jobs/crud.rs) and the SSE progress stream
(src/routes/jobs/stream.rs).

Ambient effects (clock, UUID generator, temp directory, the uuid/chrono
parsers, the external conversion collaborator) are passed explicitly through
an `Env` record or as parameters; the database is a list of records, the
broadcast channel is the list of published updates, the filesystem is the
list of existing paths.
-/

deriving instance DecidableEq for Except

namespace Converty

/-- Single-quote character, used in Italian UI messages of the source. -/
def apos : String := ('\x27').toString

/-- models/job.rs `JobStatus`. -/
inductive JobStatus where
  | pending
  | processing
  | completed
  | failed
  | cancelled
  deriving DecidableEq, Repr

/-- models/request.rs `ConversionType`. -/
inductive ConversionType where
  | image
  | document
  | audio
  | video
  | pdf
  deriving DecidableEq, Repr

/-- `Display` impl of `ConversionType` (models/request.rs). -/
def ConversionType.toStr : ConversionType → String
  | .image => "image"
  | .document => "document"
  | .audio => "audio"
  | .video => "video"
  | .pdf => "pdf"

/-- models/job.rs `ProgressUpdate`.  `job_id` is the canonical UUID string,
`timestamp` the rfc3339 string of the emission time. -/
structure ProgressUpdate where
  job_id : String
  status : JobStatus
  progress : Int
  message : Option String
  timestamp : String
  deriving DecidableEq, Repr

/-- db/jobs.rs `JobRecord`: the persisted row of the `jobs` table.
Timestamps are kept in their stored rfc3339-string encoding. -/
structure JobRecord where
  id : String
  api_key_id : Option String
  conversion_type : String
  input_format : String
  output_format : String
  quality : Option Int
  status : String
  progress : Int
  progress_message : Option String
  input_path : String
  result_path : Option String
  error : Option String
  file_size_bytes : Option Int
  created_at : String
  started_at : Option String
  completed_at : Option String
  updated_at : String
  priority : Option String
  webhook_url : Option String
  source_url : Option String
  expires_at : Option String
  retry_count : Option Int
  original_filename : Option String
  drive_file_id : Option String
  deriving DecidableEq, Repr

/-- models/job.rs `Job`: the in-memory job.  UUIDs and parsed timestamps are
modelled by their canonical strings. -/
structure Job where
  id : String
  status : JobStatus
  conversion_type : ConversionType
  input_path : String
  input_format : String
  output_format : String
  quality : Option Int
  created_at : String
  completed_at : Option String
  result_path : Option String
  error : Option String
  progress : Int
  progress_message : Option String
  deriving DecidableEq, Repr

/-- error.rs `AppError` (the variants the job engine uses). -/
inductive AppError where
  | jobNotFound (id : String)
  | jobNotCompleted
  | tooManyJobs (msg : String)
  | badRequest (msg : String)
  | internal (msg : String)
  deriving DecidableEq, Repr

/-- db/api_keys: the row of the `api_keys` table that
`get_user_job_limit` reads (`max_concurrent_jobs`, nullable). -/
structure ApiKeyRecord where
  id : String
  max_concurrent_jobs : Option Int
  deriving DecidableEq, Repr

/-- Ambient effects of one request: the clock (`Utc::now().to_rfc3339()`),
the UUID generator (`Uuid::new_v4()`), the temp directory, the hour
arithmetic for `expires_at`, the external parsers (`Uuid::parse_str`,
`chrono::DateTime::parse_from_rfc3339`, both returning the canonical string
on success), and whether `Semaphore::acquire` fails (the semaphore is never
closed in the program, so this is `false` in any real run). -/
structure Env where
  now : String
  newUuid : String
  tempDir : String
  addHours : Int → String
  parseUuid : String → Option String
  parseRfc3339 : String → Option String
  semaphoreClosed : Bool

/-! ## db/jobs.rs operations -/

/-- db/jobs.rs `get_job`: `SELECT … FROM jobs WHERE id = ?` (`fetch_optional`). -/
def get_job (db : List JobRecord) (id : String) : Option JobRecord :=
  db.find? (fun r => r.id == id)

/-- db/jobs.rs `update_job_status`: builds the dynamic `UPDATE jobs SET …`
statement.  `status`, `progress`, `progress_message` and `updated_at` are
always set; `error` and `result_path` only when the argument is `Some`;
`started_at := now` when `status == "processing"`; `completed_at := now`
when `status` is `"completed"` or `"failed"`.  `WHERE id = ?` — there is no
guard on the current status.  Returns the new table and
`rows_affected() > 0`. -/
def update_job_status (db : List JobRecord) (id status : String)
    (progress : Int) (progress_message error result_path : Option String)
    (now : String) : List JobRecord × Bool :=
  (db.map (fun r =>
    if r.id == id then
      { r with
        status := status
        progress := progress
        progress_message := progress_message
        updated_at := now
        error := if error.isSome then error else r.error
        result_path := if result_path.isSome then result_path else r.result_path
        started_at := if status == "processing" then some now else r.started_at
        completed_at :=
          if status == "completed" || status == "failed" then some now
          else r.completed_at }
    else r),
   db.any (fun r => r.id == id))

/-- The message `'Job cancellato dall''utente'` written by the
`cancel_job` UPDATE (db/jobs.rs) and republished by the cancel route. -/
def cancelUserMsg : String := "Job cancellato dall" ++ apos ++ "utente"

/-- db/jobs.rs `cancel_job`: sets `status = 'cancelled'`,
`progress_message`, `completed_at`, `updated_at`, guarded by
`WHERE id = ? AND status IN ('pending', 'processing')`. -/
def cancel_job_db (db : List JobRecord) (id : String) (now : String) :
    List JobRecord × Bool :=
  let hit := fun (r : JobRecord) =>
    r.id == id && (r.status == "pending" || r.status == "processing")
  (db.map (fun r =>
    if hit r then
      { r with
        status := "cancelled"
        progress_message := some cancelUserMsg
        completed_at := some now
        updated_at := now }
    else r),
   db.any hit)

/-- db/jobs.rs `reset_job_for_retry`: back to `'pending'`, progress 0,
clears `error`/`started_at`/`completed_at`, bumps
`retry_count = COALESCE(retry_count, 0) + 1`, guarded by
`WHERE id = ? AND status = 'failed'`. -/
def reset_job_for_retry (db : List JobRecord) (id : String) (now : String) :
    List JobRecord × Bool :=
  let hit := fun (r : JobRecord) => r.id == id && r.status == "failed"
  (db.map (fun r =>
    if hit r then
      { r with
        status := "pending"
        progress := 0
        progress_message := some "In coda per retry..."
        error := none
        started_at := none
        completed_at := none
        retry_count := some (r.retry_count.getD 0 + 1)
        updated_at := now }
    else r),
   db.any hit)

/-- db/jobs.rs `delete_job`: `DELETE FROM jobs WHERE id = ?`, returns
`rows_affected() > 0`. -/
def delete_job_db (db : List JobRecord) (id : String) :
    List JobRecord × Bool :=
  (db.filter (fun r => r.id != id), db.any (fun r => r.id == id))

/-- db/jobs.rs `count_user_active_jobs`:
`COUNT(*) WHERE api_key_id = ? AND status IN ('pending', 'processing')`. -/
def count_user_active_jobs (db : List JobRecord) (api_key_id : String) : Int :=
  ((db.filter (fun r =>
    r.api_key_id == some api_key_id &&
      (r.status == "pending" || r.status == "processing"))).length : Int)

/-- db/jobs.rs `get_user_job_limit`:
`SELECT max_concurrent_jobs FROM api_keys WHERE id = ?` via `fetch_one`
(`none` here models the sqlx row-not-found error), then `unwrap_or(5)`. -/
def get_user_job_limit (keys : List ApiKeyRecord) (api_key_id : String) :
    Option Int :=
  (keys.find? (fun k => k.id == api_key_id)).map
    (fun k => k.max_concurrent_jobs.getD 5)

/-- db/jobs.rs `get_job_webhook`:
`SELECT webhook_url FROM jobs WHERE id = ?` (`fetch_optional`, then
`row.and_then(|r| r.0)`). -/
def get_job_webhook (db : List JobRecord) (id : String) : Option String :=
  (get_job db id).bind (fun r => r.webhook_url)

/-! ## System state: database, filesystem, broadcast channel, side effects -/

/-- Observable effect markers used to state the semaphore discipline of
`process_job`: permit acquisition/release and job-status writes. -/
inductive Event where
  | acquired
  | released
  | statusWrite (id status : String)
  deriving DecidableEq, Repr

/-- The mutable world the queue service acts on: the `jobs` table, the set
of existing file paths, the updates published on the broadcast channel (in
order), the webhooks handed to `send_webhook` as `(url, status, error)`,
the job ids spawned to `process_job`, and the event log for the semaphore
discipline. -/
structure SysState where
  db : List JobRecord
  fs : List String
  published : List ProgressUpdate
  webhooksSent : List (String × String × Option String)
  dispatched : List String
  events : List Event
  deriving DecidableEq, Repr

/-- `ProgressUpdate::new` (models/job.rs): stamps the current time. -/
def mkUpdate (env : Env) (job_id : String) (status : JobStatus)
    (progress : Int) (message : Option String) : ProgressUpdate :=
  { job_id := job_id, status := status, progress := progress,
    message := message, timestamp := env.now }

/-- queue.rs `JobQueueInner::send_progress`: broadcast the update
(errors when no receiver is connected are ignored). -/
def send_progress (u : ProgressUpdate) (s : SysState) : SysState :=
  { s with published := s.published ++ [u] }

/-- Apply `update_job_status` to the system state, recording a
status-write event. -/
def dbUpdate (s : SysState) (id status : String) (progress : Int)
    (progress_message error result_path : Option String) (now : String) :
    SysState :=
  { s with
    db := (update_job_status s.db id status progress progress_message
      error result_path now).1
    events := s.events ++ [Event.statusWrite id status] }

/-- queue.rs `JobQueueInner::update_job_progress`. -/
def update_job_progress (env : Env) (id : String) (progress : Int)
    (message : Option String) (s : SysState) : SysState :=
  let s := dbUpdate s id "processing" progress message none none env.now
  send_progress (mkUpdate env id .processing progress message) s

/-- queue.rs `JobQueueInner::mark_job_processing`. -/
def mark_job_processing (env : Env) (id : String) (s : SysState) : SysState :=
  let s := dbUpdate s id "processing" 0 (some "Avvio conversione...")
    none none env.now
  send_progress (mkUpdate env id .processing 0 (some "Avvio conversione..."))
    s

/-- queue.rs `JobQueueInner::mark_job_completed`. -/
def mark_job_completed (env : Env) (id : String) (result_path : String)
    (s : SysState) : SysState :=
  let s := dbUpdate s id "completed" 100 (some "Conversione completata!")
    none (some result_path) env.now
  send_progress
    (mkUpdate env id .completed 100 (some "Conversione completata!")) s

/-- queue.rs `JobQueueInner::mark_job_failed`: note the progress written
and published is 0. -/
def mark_job_failed (env : Env) (id : String) (error : String)
    (s : SysState) : SysState :=
  let s := dbUpdate s id "failed" 0 (some ("Errore: " ++ error))
    (some error) none env.now
  send_progress (mkUpdate env id .failed 0 (some ("Errore: " ++ error))) s

/-! ## queue.rs conversions and queue methods -/

/-- The status match of `job_from_record` (queue.rs): the five known
strings, anything else falls back to `Pending`. -/
def status_from_str (s : String) : JobStatus :=
  if s = "pending" then .pending
  else if s = "processing" then .processing
  else if s = "completed" then .completed
  else if s = "failed" then .failed
  else if s = "cancelled" then .cancelled
  else .pending

/-- The conversion-type match of `job_from_record` (queue.rs): four known
strings, anything else (including `"pdf"`) falls back to `Image`. -/
def conv_type_from_str (s : String) : ConversionType :=
  if s = "image" then .image
  else if s = "document" then .document
  else if s = "audio" then .audio
  else if s = "video" then .video
  else .image

/-- queue.rs `job_from_record`: converts a persisted record to an
in-memory `Job`.  `Uuid::parse_str(&r.id).unwrap_or_else(Uuid::new_v4)`;
`parse_from_rfc3339(&r.created_at) … .unwrap_or_else(Utc::now)`;
`r.completed_at.as_ref().and_then(|s| parse(s).ok())`; the `as u8` casts
on `quality` and `progress` take the value mod 256. -/
def job_from_record (env : Env) (r : JobRecord) : Job :=
  { id := (env.parseUuid r.id).getD env.newUuid
    status := status_from_str r.status
    conversion_type := conv_type_from_str r.conversion_type
    input_path := r.input_path
    input_format := r.input_format
    output_format := r.output_format
    quality := r.quality.map (fun q => q % 256)
    created_at := (env.parseRfc3339 r.created_at).getD env.now
    completed_at := r.completed_at.bind (fun t => env.parseRfc3339 t)
    result_path := r.result_path
    error := r.error
    progress := r.progress % 256
    progress_message := r.progress_message }

/-- models/job.rs `Job::to_progress_update`. -/
def Job.to_progress_update (env : Env) (j : Job) : ProgressUpdate :=
  mkUpdate env j.id j.status j.progress j.progress_message

/-- queue.rs `JobQueueInner::get_job`. -/
def get_job_q (env : Env) (s : SysState) (id : String) : Option Job :=
  (get_job s.db id).map (job_from_record env)

/-- queue.rs `JobQueueInner::create_job`: per-user admission check for
authenticated jobs (count of active jobs vs `get_user_job_limit`), then
writes the input artifact, inserts the `pending` record and publishes the
initial update.  Returns the new job id. -/
def create_job (env : Env) (keys : List ApiKeyRecord)
    (conversion_type : ConversionType) (input_data_len : Nat)
    (input_format output_format : String) (quality : Option Int)
    (api_key_id : Option String)
    (priority webhook_url source_url : Option String)
    (expires_in_hours : Option Int) (original_filename : Option String)
    (s : SysState) : Except AppError (String × SysState) :=
  let admission : Except AppError Unit :=
    match api_key_id with
    | none => .ok ()
    | some key_id =>
      let user_active := count_user_active_jobs s.db key_id
      match get_user_job_limit keys key_id with
      | none => .error (.internal "RowNotFound")
      | some user_limit =>
        if user_active ≥ user_limit then
          .error (.tooManyJobs
            s!"Limite job raggiunto: {user_active}/{user_limit}")
        else .ok ()
  match admission with
  | .error e => .error e
  | .ok _ =>
    let job_id := env.newUuid
    let job_dir := env.tempDir ++ "/" ++ job_id
    let input_path := job_dir ++ "/input." ++ input_format
    let file_size : Int := input_data_len
    let job_record : JobRecord :=
      { id := job_id
        api_key_id := api_key_id
        conversion_type := conversion_type.toStr
        input_format := input_format
        output_format := output_format
        quality := quality
        status := "pending"
        progress := 0
        progress_message := none
        input_path := input_path
        result_path := none
        error := none
        file_size_bytes := some file_size
        created_at := env.now
        started_at := none
        completed_at := none
        updated_at := env.now
        priority := priority.or (some "normal")
        webhook_url := webhook_url
        source_url := source_url
        expires_at := expires_in_hours.map env.addHours
        retry_count := some 0
        original_filename := original_filename
        drive_file_id := none }
    let s := { s with fs := s.fs ++ [input_path], db := s.db ++ [job_record] }
    let s := send_progress (mkUpdate env job_id .pending 0 none) s
    .ok (job_id, s)

/-- queue.rs `JobQueueInner::delete_job`: loads the record; if present,
removes the job's temp directory (which holds the input artifact), the
result artifact, and the database record; otherwise `JobNotFound` and
nothing is touched. -/
def delete_job_q (env : Env) (id : String) (s : SysState) :
    SysState × Except AppError Unit :=
  match get_job s.db id with
  | some job =>
    let job_dir := env.tempDir ++ "/" ++ id
    let fs1 := s.fs.filter (fun p =>
      !(p == job_dir || (job_dir ++ "/").isPrefixOf p))
    let fs2 :=
      match job.result_path with
      | some rp => fs1.filter (fun p => p != rp)
      | none => fs1
    ({ s with fs := fs2, db := (delete_job_db s.db id).1 }, .ok ())
  | none => (s, .error (.jobNotFound id))

/-! ## queue/processor.rs -/

/-- Outcome of the external conversion collaborator inside `process_job`:
either the actual output path (`convert_pdf_file_smart` /
`convert_file`) or the error string. -/
inductive ConvOutcome where
  | success (actual_output_path : String)
  | failure (err : String)
  deriving DecidableEq, Repr

/-- queue/processor.rs `process_job`: acquire one permit from the global
semaphore (early return if `acquire` errs, i.e. the semaphore is closed),
mark the job processing, load it (early return if missing — the RAII
permit is dropped), publish the 10/30/80 checkpoints around the external
conversion, mark completed or failed, and hand the webhook (if any) to
`send_webhook` with the final status.  The permit is released when the
scope ends on every path. -/
def process_job (env : Env) (conv : ConvOutcome) (job_id : String)
    (s : SysState) : SysState :=
  if env.semaphoreClosed then s
  else
    let s := { s with events := s.events ++ [Event.acquired] }
    let s := mark_job_processing env job_id s
    match get_job_q env s job_id with
    | none => { s with events := s.events ++ [Event.released] }
    | some _job =>
      let s := update_job_progress env job_id 10
        (some "Caricamento file...") s
      let s := update_job_progress env job_id 30
        (some "Conversione in corso...") s
      let s := update_job_progress env job_id 80
        (some "Salvataggio risultato...") s
      let step : SysState × String × Option String :=
        match conv with
        | .success path =>
          (mark_job_completed env job_id path s, "completed", none)
        | .failure e =>
          (mark_job_failed env job_id e s, "failed", some e)
      let s := step.1
      let s :=
        match get_job_webhook s.db job_id with
        | some url =>
          { s with webhooksSent :=
              s.webhooksSent ++ [(url, step.2.1, step.2.2)] }
        | none => s
      { s with events := s.events ++ [Event.released] }

/-! ## routes/jobs/crud.rs handlers -/

/-- `MAX_RETRIES` (routes/jobs/crud.rs). -/
def MAX_RETRIES : Int := 3

/-- routes/jobs/crud.rs `cancel_job`: only `pending`/`processing` jobs may
be cancelled; runs the guarded `cancel_job` UPDATE, then publishes a
`cancelled` update on the broadcast channel. -/
def cancel_job_route (env : Env) (id : String) (s : SysState) :
    SysState × Except AppError Unit :=
  match get_job s.db id with
  | none => (s, .error (.jobNotFound id))
  | some job =>
    if job.status != "pending" && job.status != "processing" then
      (s, .error (.badRequest ("Il job con stato " ++ apos ++ job.status
        ++ apos ++ " non può essere cancellato")))
    else
      let upd := cancel_job_db s.db id env.now
      let s := { s with db := upd.1 }
      if !upd.2 then (s, .error (.internal "Impossibile cancellare il job"))
      else
        match env.parseUuid id with
        | none => (s, .error (.jobNotFound id))
        | some jid =>
          (send_progress
            (mkUpdate env jid .cancelled 0 (some cancelUserMsg)) s, .ok ())

/-- routes/jobs/crud.rs `retry_job`: only `failed` jobs with
`retry_count < MAX_RETRIES` may be retried; resets the record via
`reset_job_for_retry` and spawns `process_job` again (modelled by
appending to `dispatched`). -/
def retry_job_route (env : Env) (id : String) (s : SysState) :
    SysState × Except AppError Unit :=
  match get_job s.db id with
  | none => (s, .error (.jobNotFound id))
  | some job =>
    if job.status != "failed" then
      (s, .error (.badRequest "Solo i job falliti possono essere ritentati"))
    else
      let retry_count := job.retry_count.getD 0
      if retry_count ≥ MAX_RETRIES then
        (s, .error (.badRequest
          s!"Numero massimo di retry raggiunto ({retry_count}/{MAX_RETRIES})"))
      else
        let upd := reset_job_for_retry s.db id env.now
        let s := { s with db := upd.1 }
        if !upd.2 then (s, .error (.internal "Impossibile resettare il job"))
        else
          match env.parseUuid id with
          | none => (s, .error (.jobNotFound id))
          | some jid =>
            ({ s with dispatched := s.dispatched ++ [jid] }, .ok ())

/-! ## routes/jobs/stream.rs -/

/-- The state of `JobProgressStream`. -/
structure JobProgressStream where
  job_id : String
  initial_sent : Bool
  initial_update : Option ProgressUpdate
  terminated : Bool
  deriving DecidableEq, Repr

/-- What the broadcast receiver yields on one poll:
`Poll::Ready(Some(Ok(u)))`, a lag error, channel closed, or pending. -/
inductive PollIn where
  | ready (u : ProgressUpdate)
  | lagged
  | closed
  | pending
  deriving DecidableEq, Repr

/-- What one `poll_next` produces: an SSE event carrying an update, end of
stream, or pending. -/
inductive PollOut where
  | item (u : ProgressUpdate)
  | done
  | pend
  deriving DecidableEq, Repr

/-- routes/jobs/stream.rs `JobProgressStream::poll_next`: if terminated,
end; otherwise first flush the synthetic initial update (terminating when
its status is `Completed` or `Failed`); then forward a broadcast update
only when its `job_id` matches (terminating on `Completed`/`Failed`),
staying pending on mismatch or lag. -/
def poll_next (s : JobProgressStream) (input : PollIn) :
    JobProgressStream × PollOut :=
  if s.terminated then (s, .done)
  else
    let step : JobProgressStream × Option PollOut :=
      if !s.initial_sent then
        let s := { s with initial_sent := true }
        match s.initial_update with
        | some u =>
          ({ s with
              initial_update := none
              terminated := u.status == .completed || u.status == .failed },
           some (PollOut.item u))
        | none => (s, none)
      else (s, none)
    match step.2 with
    | some out => (step.1, out)
    | none =>
      let s := step.1
      match input with
      | .ready u =>
        if u.job_id == s.job_id then
          ({ s with
              terminated := u.status == .completed || u.status == .failed },
           .item u)
        else (s, .pend)
      | .lagged => (s, .pend)
      | .closed => (s, .done)
      | .pending => (s, .pend)

/-- routes/jobs/stream.rs `job_progress_stream`: parse the id, load the
job (404 when absent), build the synthetic initial update from the
persisted state, subscribe, and return the fresh stream. -/
def job_progress_stream (env : Env) (s : SysState) (id : String) :
    Except AppError JobProgressStream :=
  match env.parseUuid id with
  | none => .error (.jobNotFound id)
  | some job_id =>
    match get_job_q env s job_id with
    | none => .error (.jobNotFound id)
    | some job =>
      .ok { job_id := job_id
            initial_sent := false
            initial_update := some (job.to_progress_update env)
            terminated := false }

/-! ## Global concurrency semaphore (queue.rs) -/

/-- queue.rs `MAX_CONCURRENT_JOBS`. -/
def MAX_CONCURRENT_JOBS : Nat := 10

/-- The counting semaphore: available permits and tasks currently holding
one. -/
structure SemState where
  available : Nat
  holding : Nat
  deriving DecidableEq, Repr

/-- `Semaphore::new(MAX_CONCURRENT_JOBS)` (queue.rs `JobQueueInner::new`). -/
def initSem : SemState := { available := MAX_CONCURRENT_JOBS, holding := 0 }

/-- The semaphore protocol: `acquire` blocks unless a permit is available;
dropping the RAII permit releases it. -/
inductive SemStep : SemState → SemState → Prop where
  | acquire (s : SemState) (h : 0 < s.available) :
      SemStep s { available := s.available - 1, holding := s.holding + 1 }
  | release (s : SemState) (h : 0 < s.holding) :
      SemStep s { available := s.available + 1, holding := s.holding - 1 }

/-! ## Helper lemmas -/

/-- `find?` over an id-preserving conditional map: looking a record up
after a guarded UPDATE finds the (possibly transformed) record that the
lookup on the old table found. -/
theorem get_job_map_cond (db : List JobRecord) (id : String)
    (c : JobRecord → Bool) (g : JobRecord → JobRecord)
    (hid : ∀ r, (g r).id = r.id) :
    get_job (db.map (fun r => if c r then g r else r)) id
      = (get_job db id).map (fun r => if c r then g r else r) := by
  unfold get_job
  induction db with
  | nil => rfl
  | cons a l ih =>
    have hcond : ((if c a then g a else a).id == id) = (a.id == id) := by
      by_cases h : c a <;> simp [h, hid]
    cases hpa : (a.id == id) with
    | true =>
      simp only [List.map_cons, List.find?, hcond, hpa]
      rfl
    | false =>
      simp only [List.map_cons, List.find?, hcond, hpa]
      exact ih

/-- A record found by `get_job` is in the table and matches the id. -/
theorem get_job_some_mem {db : List JobRecord} {id : String}
    {r : JobRecord} (h : get_job db id = some r) :
    r ∈ db ∧ r.id = id := by
  unfold get_job at h
  refine ⟨List.mem_of_find?_eq_some h, ?_⟩
  have := List.find?_some h
  simpa using this

/-- `get_job` after `update_job_status` on the same id. -/
theorem get_job_after_update (db : List JobRecord) (id status : String)
    (p : Int) (m e rp : Option String) (now : String) :
    get_job (update_job_status db id status p m e rp now).1 id
      = (get_job db id).map (fun r =>
          if r.id == id then
            { r with
              status := status
              progress := p
              progress_message := m
              updated_at := now
              error := if e.isSome then e else r.error
              result_path := if rp.isSome then rp else r.result_path
              started_at := if status == "processing" then some now
                else r.started_at
              completed_at :=
                if status == "completed" || status == "failed" then some now
                else r.completed_at }
          else r) := by
  unfold update_job_status
  exact get_job_map_cond db id _ _ (fun r => rfl)

/-- `get_job` after the guarded cancel UPDATE on the same id. -/
theorem get_job_after_cancel (db : List JobRecord) (id now : String) :
    get_job (cancel_job_db db id now).1 id
      = (get_job db id).map (fun r =>
          if r.id == id &&
              (r.status == "pending" || r.status == "processing") then
            { r with
              status := "cancelled"
              progress_message := some cancelUserMsg
              completed_at := some now
              updated_at := now }
          else r) := by
  simp only [cancel_job_db]
  exact get_job_map_cond db id _ _ (fun r => rfl)

/-- `get_job` after the guarded retry-reset UPDATE on the same id. -/
theorem get_job_after_reset (db : List JobRecord) (id now : String) :
    get_job (reset_job_for_retry db id now).1 id
      = (get_job db id).map (fun r =>
          if r.id == id && r.status == "failed" then
            { r with
              status := "pending"
              progress := 0
              progress_message := some "In coda per retry..."
              error := none
              started_at := none
              completed_at := none
              retry_count := some (r.retry_count.getD 0 + 1)
              updated_at := now }
          else r) := by
  simp only [reset_job_for_retry]
  exact get_job_map_cond db id _ _ (fun r => rfl)

/-- The published-update trace of a successful `process_job` run: the
five checkpoints 0, 10, 30, 80, 100 in order. -/
theorem process_job_published_success (env : Env) (path id : String)
    (s : SysState) (hopen : env.semaphoreClosed = false)
    (hj : (get_job s.db id).isSome) :
    (process_job env (.success path) id s).published =
      s.published ++
        [mkUpdate env id .processing 0 (some "Avvio conversione..."),
         mkUpdate env id .processing 10 (some "Caricamento file..."),
         mkUpdate env id .processing 30 (some "Conversione in corso..."),
         mkUpdate env id .processing 80 (some "Salvataggio risultato..."),
         mkUpdate env id .completed 100 (some "Conversione completata!")] := by
  obtain ⟨r, hr⟩ := Option.isSome_iff_exists.mp hj
  simp only [process_job, get_job_q, mark_job_processing,
    update_job_progress, mark_job_completed, dbUpdate, send_progress,
    hopen, Bool.false_eq_true, if_false]
  rw [get_job_after_update, hr]
  simp
  split <;> simp

/-- The published-update trace of a failing `process_job` run: the
checkpoints 0, 10, 30, 80 and then the `failed` update carrying
progress 0. -/
theorem process_job_published_failure (env : Env) (e id : String)
    (s : SysState) (hopen : env.semaphoreClosed = false)
    (hj : (get_job s.db id).isSome) :
    (process_job env (.failure e) id s).published =
      s.published ++
        [mkUpdate env id .processing 0 (some "Avvio conversione..."),
         mkUpdate env id .processing 10 (some "Caricamento file..."),
         mkUpdate env id .processing 30 (some "Conversione in corso..."),
         mkUpdate env id .processing 80 (some "Salvataggio risultato..."),
         mkUpdate env id .failed 0 (some ("Errore: " ++ e))] := by
  obtain ⟨r, hr⟩ := Option.isSome_iff_exists.mp hj
  simp only [process_job, get_job_q, mark_job_processing,
    update_job_progress, mark_job_failed, dbUpdate, send_progress,
    hopen, Bool.false_eq_true, if_false]
  rw [get_job_after_update, hr]
  simp
  split <;> simp

/-! ## Concrete fixtures -/

/-- A canonical job id (36 characters, as `Uuid::to_string` produces). -/
def jidA : String := "00000000-0000-0000-0000-000000000001"

/-- A concrete environment: fixed clock and UUID generator; the UUID
parser accepts exactly the canonical 36-character strings; the timestamp
parser fails only on `"garbage"`; the semaphore is open (it is never
closed in the program). -/
def envA : Env :=
  { now := "2026-01-01T00:00:00+00:00"
    newUuid := jidA
    tempDir := "/tmp/converty/jobs"
    addHours := fun h => s!"expiry-plus-{h}h"
    parseUuid := fun v => if v.length == 36 then some v else none
    parseRfc3339 := fun v => if v == "garbage" then none else some v
    semaphoreClosed := false }

/-- The empty world before any job is created. -/
def sysEmpty : SysState :=
  { db := [], fs := [], published := [], webhooksSent := [],
    dispatched := [], events := [] }

/-- The world after creating one anonymous png→jpg job with a webhook URL
configured (what `create_job` produces from `sysEmpty`). -/
def s_created : SysState :=
  match create_job envA [] .image 3 "png" "jpg" (some 80) none none
      (some "http://hook.example/x") none none none sysEmpty with
  | .ok p => p.2
  | .error _ => sysEmpty

/-- The `pending` record that `create_job` persisted in `s_created`. -/
def recA : JobRecord :=
  { id := jidA
    api_key_id := none
    conversion_type := "image"
    input_format := "png"
    output_format := "jpg"
    quality := some 80
    status := "pending"
    progress := 0
    progress_message := none
    input_path := "/tmp/converty/jobs/" ++ jidA ++ "/input.png"
    result_path := none
    error := none
    file_size_bytes := some 3
    created_at := envA.now
    started_at := none
    completed_at := none
    updated_at := envA.now
    priority := some "normal"
    webhook_url := some "http://hook.example/x"
    source_url := none
    expires_at := none
    retry_count := some 0
    original_filename := none
    drive_file_id := none }

/-- Cancelling the job of `s_created` while it is still `pending`. -/
def afterCancel : SysState × Except AppError Unit :=
  cancel_job_route envA jidA s_created

/-- The in-flight dispatcher task (spawned at creation) then runs to a
successful conversion, after the cancellation. -/
def afterCancelRun : SysState :=
  process_job envA (.success "/tmp/out.jpg") jidA afterCancel.1

/-- A dispatcher run in which the conversion collaborator fails. -/
def failedRun : SysState :=
  process_job envA (.failure "boom") jidA s_created

/-- The world after the dispatcher ran the job of `s_created` to a
successful completion (the record is terminal `completed`). -/
def doneRun : SysState :=
  process_job envA (.success "/tmp/out.jpg") jidA s_created

/-- The `completed` record persisted in `doneRun`. -/
def recDone : JobRecord :=
  match get_job doneRun.db jidA with
  | some r => r
  | none => recA

/-! ## C1 -/

/-- **C1** (counterexample): cancelling the `pending` job does set its
status to `cancelled`, but the in-flight dispatcher — which never
re-checks the status (`update_job_status` has no status guard) — then
overwrites the record to `completed` and a webhook with status
`"completed"` is sent for that job id, contradicting the claim that the
cancelled record is never overwritten and that no `completed` webhook is
ever sent. -/
theorem C1_counterexample :
    afterCancel.2 = .ok () ∧
    (get_job afterCancel.1.db jidA).map (fun r => r.status)
      = some "cancelled" ∧
    (get_job afterCancelRun.db jidA).map (fun r => r.status)
      = some "completed" ∧
    afterCancelRun.webhooksSent
      = [("http://hook.example/x", "completed", none)] := by
  decide

/-- **C1** (amended): if `cancel(job_id)` is called while the job's
status is `pending`, the persisted status immediately becomes `cancelled`
and a terminal `cancelled` update is published at once; however the
record is not protected afterwards — an in-flight dispatcher may later
overwrite it to `processing`/`completed` and send a `completed` webhook,
because `update_job_status` carries no status guard and `process_job`
never re-checks cancellation. -/
theorem C1_cancel_pending_immediate (env : Env) (s : SysState)
    (id jid : String) (r : JobRecord)
    (hr : get_job s.db id = some r) (hst : r.status = "pending")
    (hu : env.parseUuid id = some jid) :
    (cancel_job_route env id s).2 = .ok () ∧
    (get_job (cancel_job_route env id s).1.db id).map (fun x => x.status)
      = some "cancelled" ∧
    (cancel_job_route env id s).1.published =
      s.published ++ [mkUpdate env jid .cancelled 0 (some cancelUserMsg)] := by
  have hmem := get_job_some_mem hr
  have hany : (cancel_job_db s.db id env.now).2 = true := by
    simp only [cancel_job_db]
    exact List.any_eq_true.mpr ⟨r, hmem.1, by simp [hmem.2, hst]⟩
  have hget := get_job_after_cancel s.db id env.now
  rw [hr] at hget
  simp [hmem.2, hst] at hget
  simp only [cancel_job_route, hr, hst, hany, hu]
  simp [hget, send_progress]

/-- **C1** (witness for the amended theorem). -/
theorem C1_witness :
    (cancel_job_route envA jidA s_created).2 = .ok () ∧
    (get_job (cancel_job_route envA jidA s_created).1.db jidA).map
      (fun x => x.status) = some "cancelled" ∧
    (cancel_job_route envA jidA s_created).1.published =
      s_created.published ++
        [mkUpdate envA jidA .cancelled 0 (some cancelUserMsg)] :=
  C1_cancel_pending_immediate envA s_created jidA jidA recA
    (by decide) (by decide) (by decide)

/-! ## C2 -/

/-- **C2** (counterexample): in a failing processing attempt the job's
published progress sequence is 0, 10, 30, 80 and then 0 again —
`mark_job_failed` writes progress 0 with the `failed` status — so
progress is not monotonically non-decreasing within a single attempt,
and the reset to 0 happens on failure, not only when the job re-enters
`pending` via retry (no retry occurs in this run: the statuses are four
times `processing`, then `failed`). -/
theorem C2_counterexample :
    (failedRun.published.drop 1).map (fun u => u.progress)
      = [0, 10, 30, 80, 0] ∧
    (failedRun.published.drop 1).map (fun u => u.status)
      = [.processing, .processing, .processing, .processing, .failed] ∧
    ¬ List.Chain' (· ≤ ·)
      ((failedRun.published.drop 1).map (fun u => u.progress)) ∧
    (get_job failedRun.db jidA).map (fun r => (r.status, r.progress))
      = some ("failed", 0) := by
  have h : (failedRun.published.drop 1).map (fun u => u.progress)
      = [0, 10, 30, 80, 0] := by decide
  refine ⟨h, by decide, ?_, by decide⟩
  rw [h]
  simp [List.chain'_cons]

/-- **C2** (amended): within a single *successful* processing attempt the
published progress is monotonically non-decreasing (0, 10, 30, 80, 100);
a *failing* attempt publishes 0, 10, 30, 80 and then resets progress to
0 together with the `failed` status; and a retry resets progress to 0
when the job re-enters `pending`. -/
theorem C2_progress_monotone (env : Env) (s : SysState)
    (id path e : String) (r : JobRecord)
    (hopen : env.semaphoreClosed = false)
    (hr : get_job s.db id = some r) :
    ((process_job env (.success path) id s).published.drop
        s.published.length).map (fun u => u.progress)
      = [0, 10, 30, 80, 100] ∧
    List.Chain' (· ≤ ·)
      (((process_job env (.success path) id s).published.drop
        s.published.length).map (fun u => u.progress)) ∧
    ((process_job env (.failure e) id s).published.drop
        s.published.length).map (fun u => u.progress)
      = [0, 10, 30, 80, 0] ∧
    (∀ now, r.status = "failed" →
      (get_job (reset_job_for_retry s.db id now).1 id).map
        (fun x => (x.status, x.progress)) = some ("pending", 0)) := by
  have hj : (get_job s.db id).isSome := by rw [hr]; rfl
  have hs := process_job_published_success env path id s hopen hj
  have hf := process_job_published_failure env e id s hopen hj
  refine ⟨?_, ?_, ?_, ?_⟩
  · rw [hs, List.drop_left]
    simp [mkUpdate]
  · rw [hs, List.drop_left]
    simp [mkUpdate]
  · rw [hf, List.drop_left]
    simp [mkUpdate]
  · intro now hfail
    have hmem := get_job_some_mem hr
    have hg := get_job_after_reset s.db id now
    rw [hr] at hg
    simp [hmem.2, hfail] at hg
    simp [hg]

/-- **C2** (witness for the amended theorem). -/
theorem C2_witness :
    ((process_job envA (.success "/tmp/out.jpg") jidA s_created).published.drop
        s_created.published.length).map (fun u => u.progress)
      = [0, 10, 30, 80, 100] ∧
    List.Chain' (· ≤ ·)
      (((process_job envA (.success "/tmp/out.jpg") jidA
        s_created).published.drop s_created.published.length).map
        (fun u => u.progress)) ∧
    ((process_job envA (.failure "boom") jidA s_created).published.drop
        s_created.published.length).map (fun u => u.progress)
      = [0, 10, 30, 80, 0] ∧
    (∀ now, recA.status = "failed" →
      (get_job (reset_job_for_retry s_created.db jidA now).1 jidA).map
        (fun x => (x.status, x.progress)) = some ("pending", 0)) :=
  C2_progress_monotone envA s_created jidA "/tmp/out.jpg" "boom" recA
    (by decide) (by decide)

/-! ## C3 -/

/-- The stream a client obtains for the job of `s_created`. -/
def streamA : JobProgressStream :=
  match job_progress_stream envA s_created jidA with
  | .ok st => st
  | .error _ =>
    { job_id := jidA, initial_sent := true, initial_update := none,
      terminated := true }

/-- First poll: flushes the synthetic initial update. -/
def streamPoll1 : JobProgressStream × PollOut := poll_next streamA .pending

/-- The broadcast `cancelled` update for this job. -/
def cancelledUpd : ProgressUpdate :=
  mkUpdate envA jidA .cancelled 0 (some cancelUserMsg)

/-- Second poll: the stream observes the terminal `cancelled` update. -/
def streamPoll2 : JobProgressStream × PollOut :=
  poll_next streamPoll1.1 (.ready cancelledUpd)

/-- A later broadcast update for the same job. -/
def laterUpd : ProgressUpdate := mkUpdate envA jidA .processing 50 none

/-- Third poll after the `cancelled` event was observed. -/
def streamPoll3 : JobProgressStream × PollOut :=
  poll_next streamPoll2.1 (.ready laterUpd)

/-- **C3** (counterexample): the per-job stream forwards a matching
`cancelled` update but does *not* self-terminate on it (`poll_next` only
checks `Completed`/`Failed`), so it still produces a further event for
that job afterwards — contradicting the claim that the stream stops
once it has observed any terminal status including `cancelled`. -/
theorem C3_counterexample :
    streamPoll2.2 = .item cancelledUpd ∧
    streamPoll2.1.terminated = false ∧
    streamPoll3.2 = .item laterUpd := by
  decide

/-- The fresh stream a late subscriber obtains for the already-completed
job of `doneRun`: its synthesized initial update is terminal. -/
def streamDone : JobProgressStream :=
  match job_progress_stream envA doneRun jidA with
  | .ok st => st
  | .error _ =>
    { job_id := jidA, initial_sent := true, initial_update := none,
      terminated := true }

/-- The synthesized initial update of `streamDone`, built from the
persisted `completed` record. -/
def doneInitUpd : ProgressUpdate :=
  (job_from_record envA recDone).to_progress_update envA

/-- **C3** (amended): a fresh stream first flushes its synthesized
initial update and self-terminates right away when that update's status
is `completed` or `failed`; after the flush it forwards a broadcast
update exactly when its job id matches the subscription, and it
self-terminates (all later polls yield `done`) once it has observed a
`completed` or `failed` status; an observed `cancelled` update is
forwarded but does not terminate the stream. -/
theorem C3_stream_filter_terminate (st : JobProgressStream)
    (u u0 : ProgressUpdate) (hterm : st.terminated = false) :
    (st.initial_sent = false → st.initial_update = some u0 →
      ∀ input, (poll_next st input).2 = .item u0 ∧
        ((poll_next st input).1.terminated
          = (u0.status == .completed || u0.status == .failed)) ∧
        ((u0.status = .completed ∨ u0.status = .failed) →
          ∀ input2, poll_next (poll_next st input).1 input2
            = ((poll_next st input).1, .done))) ∧
    (st.initial_sent = true → st.initial_update = none →
      (u.job_id ≠ st.job_id → poll_next st (.ready u) = (st, .pend)) ∧
      (u.job_id = st.job_id →
        (poll_next st (.ready u)).2 = .item u ∧
        ((poll_next st (.ready u)).1.terminated
          = (u.status == .completed || u.status == .failed)) ∧
        ((u.status = .completed ∨ u.status = .failed) →
          ∀ input, poll_next (poll_next st (.ready u)).1 input
            = ((poll_next st (.ready u)).1, .done)) ∧
        (u.status = .cancelled →
          (poll_next st (.ready u)).1.terminated = false))) := by
  constructor
  · intro hsent hinit input
    refine ⟨?_, ?_, ?_⟩
    · simp [poll_next, hterm, hsent, hinit]
    · simp [poll_next, hterm, hsent, hinit]
    · intro hst input2
      rcases hst with h | h <;>
        simp [poll_next, hterm, hsent, hinit, h]
  · intro hsent hinit
    constructor
    · intro hne
      simp [poll_next, hterm, hsent, hinit, hne]
    · intro heq
      have hb : (u.job_id == st.job_id) = true := by simp [heq]
      refine ⟨?_, ?_, ?_, ?_⟩
      · simp [poll_next, hterm, hsent, hinit, hb]
      · simp [poll_next, hterm, hsent, hinit, hb]
      · intro hst input
        rcases hst with h | h <;>
          simp [poll_next, hterm, hsent, hinit, hb, h]
      · intro h
        simp [poll_next, hterm, hsent, hinit, hb, h]

/-- **C3** (witness for the amended theorem, at the fresh stream of a
job that already completed: its synthesized initial update is
terminal). -/
theorem C3_witness :
    (streamDone.initial_sent = false →
      streamDone.initial_update = some doneInitUpd →
      ∀ input, (poll_next streamDone input).2 = .item doneInitUpd ∧
        ((poll_next streamDone input).1.terminated
          = (doneInitUpd.status == .completed ||
             doneInitUpd.status == .failed)) ∧
        ((doneInitUpd.status = .completed ∨
            doneInitUpd.status = .failed) →
          ∀ input2, poll_next (poll_next streamDone input).1 input2
            = ((poll_next streamDone input).1, .done))) ∧
    (streamDone.initial_sent = true → streamDone.initial_update = none →
      (cancelledUpd.job_id ≠ streamDone.job_id →
        poll_next streamDone (.ready cancelledUpd)
          = (streamDone, .pend)) ∧
      (cancelledUpd.job_id = streamDone.job_id →
        (poll_next streamDone (.ready cancelledUpd)).2
          = .item cancelledUpd ∧
        ((poll_next streamDone (.ready cancelledUpd)).1.terminated
          = (cancelledUpd.status == .completed ||
             cancelledUpd.status == .failed)) ∧
        ((cancelledUpd.status = .completed ∨
            cancelledUpd.status = .failed) →
          ∀ input,
            poll_next (poll_next streamDone (.ready cancelledUpd)).1 input
              = ((poll_next streamDone (.ready cancelledUpd)).1, .done)) ∧
        (cancelledUpd.status = .cancelled →
          (poll_next streamDone (.ready cancelledUpd)).1.terminated
            = false))) :=
  C3_stream_filter_terminate streamDone cancelledUpd doneInitUpd
    (by decide)

/-! ## C7 -/

/-- **C7**: every subscriber's stream starts unterminated with the
synthetic initial update built from the persisted record (status via the
status match, `progress as u8`, the stored message), and the first poll
emits exactly that synthetic event whatever the broadcast receiver
yields — also when the job is already terminal, in which case the stream
is terminated right after flushing it. -/
theorem C7_initial_event (env : Env) (s : SysState) (idStr jid : String)
    (r : JobRecord)
    (hu : env.parseUuid idStr = some jid)
    (hr : get_job s.db jid = some r) :
    ∃ st, job_progress_stream env s idStr = .ok st ∧
      st.initial_sent = false ∧ st.terminated = false ∧
      st.initial_update
        = some ((job_from_record env r).to_progress_update env) ∧
      ((job_from_record env r).to_progress_update env).status
        = status_from_str r.status ∧
      ((job_from_record env r).to_progress_update env).progress
        = r.progress % 256 ∧
      ((job_from_record env r).to_progress_update env).message
        = r.progress_message ∧
      (∀ input, (poll_next st input).2
        = .item ((job_from_record env r).to_progress_update env)) ∧
      (r.status = "completed" →
        ∀ input, (poll_next st input).1.terminated = true) := by
  refine ⟨{ job_id := jid, initial_sent := false,
            initial_update :=
              some ((job_from_record env r).to_progress_update env),
            terminated := false }, ?_, rfl, rfl, rfl, rfl, rfl, rfl, ?_, ?_⟩
  · simp [job_progress_stream, hu, get_job_q, hr]
  · intro input
    simp [poll_next]
  · intro hdone input
    simp [poll_next, Job.to_progress_update, mkUpdate, job_from_record,
      status_from_str, hdone]

/-- **C7** (witness): a subscriber arriving after the job completed. -/
theorem C7_witness :
    ∃ st, job_progress_stream envA doneRun jidA = .ok st ∧
      st.initial_sent = false ∧ st.terminated = false ∧
      st.initial_update
        = some ((job_from_record envA recDone).to_progress_update envA) ∧
      ((job_from_record envA recDone).to_progress_update envA).status
        = status_from_str recDone.status ∧
      ((job_from_record envA recDone).to_progress_update envA).progress
        = recDone.progress % 256 ∧
      ((job_from_record envA recDone).to_progress_update envA).message
        = recDone.progress_message ∧
      (∀ input, (poll_next st input).2
        = .item ((job_from_record envA recDone).to_progress_update envA)) ∧
      (recDone.status = "completed" →
        ∀ input, (poll_next st input).1.terminated = true) :=
  C7_initial_event envA doneRun jidA jidA recDone (by decide) (by decide)

/-! ## C4 -/

/-- **C4**: for an authenticated job whose api key row exists, admission
fails with `TooManyJobs` exactly when the owner's count of non-terminal
(pending or processing) jobs is at or above the configured limit
(`max_concurrent_jobs`, defaulting to 5 when NULL); a job with no owning
`api_key_id` passes this check unconditionally. -/
theorem C4_admission (env : Env) (keys : List ApiKeyRecord)
    (ct : ConversionType) (len : Nat) (inf outf : String) (q : Option Int)
    (pr wh su : Option String) (eh : Option Int) (ofn : Option String)
    (s : SysState) (key_id : String) (row : ApiKeyRecord)
    (hrow : keys.find? (fun k => k.id == key_id) = some row) :
    ((∃ m, create_job env keys ct len inf outf q (some key_id) pr wh su eh
        ofn s = .error (.tooManyJobs m)) ↔
      row.max_concurrent_jobs.getD 5 ≤ count_user_active_jobs s.db key_id) ∧
    (∃ jid s2, create_job env keys ct len inf outf q none pr wh su eh ofn s
      = .ok (jid, s2)) := by
  constructor
  · by_cases hc : row.max_concurrent_jobs.getD 5
        ≤ count_user_active_jobs s.db key_id
    · constructor
      · intro _
        exact hc
      · intro _
        simp only [create_job, get_user_job_limit, hrow, Option.map]
        rw [if_pos hc]
        exact ⟨_, rfl⟩
    · constructor
      · rintro ⟨m, hm⟩
        simp only [create_job, get_user_job_limit, hrow, Option.map] at hm
        rw [if_neg hc] at hm
        simp at hm
      · intro h
        exact absurd h hc
  · exact ⟨_, _, rfl⟩

/-- Concrete api-keys table: one key with `max_concurrent_jobs` NULL
(so the default limit 5 applies). -/
def keysA : List ApiKeyRecord := [{ id := "key1", max_concurrent_jobs := none }]

/-- **C4** (witness). -/
theorem C4_witness :
    ((∃ m, create_job envA keysA .image 3 "png" "jpg" (some 80)
        (some "key1") none none none none none sysEmpty
        = .error (.tooManyJobs m)) ↔
      ({ id := "key1", max_concurrent_jobs := none } :
        ApiKeyRecord).max_concurrent_jobs.getD 5
        ≤ count_user_active_jobs sysEmpty.db "key1") ∧
    (∃ jid s2, create_job envA keysA .image 3 "png" "jpg" (some 80) none
      none none none none none sysEmpty = .ok (jid, s2)) :=
  C4_admission envA keysA .image 3 "png" "jpg" (some 80) none none none
    none none sysEmpty "key1" { id := "key1", max_concurrent_jobs := none }
    (by decide)

/-! ## C5 -/

/-- **C5**: for an existing job, `retry` succeeds exactly when the job's
status is `failed` and `retry_count < 3`; on success it resets the record
to `pending` with progress 0, clears `error`/`started_at`/`completed_at`,
increments `retry_count` by exactly 1, and re-submits the job to the
dispatcher; any job whose `retry_count` is 3 is rejected with a
`BadRequest`. -/
theorem C5_retry (env : Env) (s : SysState) (id jid : String)
    (r : JobRecord)
    (hr : get_job s.db id = some r)
    (hu : env.parseUuid id = some jid) :
    ((retry_job_route env id s).2 = .ok () ↔
      (r.status = "failed" ∧ r.retry_count.getD 0 < 3)) ∧
    (r.status = "failed" → r.retry_count.getD 0 < 3 →
      get_job (retry_job_route env id s).1.db id
        = some { r with
            status := "pending"
            progress := 0
            progress_message := some "In coda per retry..."
            error := none
            started_at := none
            completed_at := none
            retry_count := some (r.retry_count.getD 0 + 1)
            updated_at := env.now } ∧
      (retry_job_route env id s).1.dispatched = s.dispatched ++ [jid]) ∧
    (r.retry_count = some 3 →
      ∃ m, (retry_job_route env id s).2 = .error (.badRequest m)) := by
  have hmem := get_job_some_mem hr
  by_cases hst : r.status = "failed"
  · by_cases hcnt : r.retry_count.getD 0 < 3
    · have hnotge : ¬ r.retry_count.getD 0 ≥ MAX_RETRIES := by
        simp only [MAX_RETRIES]
        omega
      have hany : (reset_job_for_retry s.db id env.now).2 = true := by
        simp only [reset_job_for_retry]
        exact List.any_eq_true.mpr ⟨r, hmem.1, by simp [hmem.2, hst]⟩
      have hget := get_job_after_reset s.db id env.now
      rw [hr] at hget
      simp [hmem.2, hst] at hget
      refine ⟨?_, fun _ _ => ⟨?_, ?_⟩, fun h3 => ?_⟩
      · simp [retry_job_route, hr, hst, if_neg hnotge, hany, hu, hcnt]
      · simp only [retry_job_route, hr, hst]
        simp [if_neg hnotge, hany, hu, hget, hmem.2]
      · simp only [retry_job_route, hr, hst]
        simp [if_neg hnotge, hany, hu]
      · exfalso
        rw [h3] at hcnt
        simp at hcnt
    · have hge : r.retry_count.getD 0 ≥ MAX_RETRIES := by
        simp only [MAX_RETRIES]
        omega
      refine ⟨?_, fun _ hc => absurd hc hcnt, fun _ => ?_⟩
      · simp [retry_job_route, hr, hst, if_pos hge, hcnt]
      · simp [retry_job_route, hr, hst, if_pos hge]
  · refine ⟨?_, fun hc => absurd hc hst, fun _ => ?_⟩
    · simp [retry_job_route, hr, hst]
    · simp [retry_job_route, hr, hst]

/-- A `failed` record with `retry_count = 2`. -/
def recFailed2 : JobRecord :=
  { recA with
      status := "failed"
      error := some "boom"
      retry_count := some 2 }

/-- A world holding only that failed job. -/
def sFailed2 : SysState := { sysEmpty with db := [recFailed2] }

/-- **C5** (witness). -/
theorem C5_witness :
    ((retry_job_route envA jidA sFailed2).2 = .ok () ↔
      (recFailed2.status = "failed" ∧ recFailed2.retry_count.getD 0 < 3)) ∧
    (recFailed2.status = "failed" → recFailed2.retry_count.getD 0 < 3 →
      get_job (retry_job_route envA jidA sFailed2).1.db jidA
        = some { recFailed2 with
            status := "pending"
            progress := 0
            progress_message := some "In coda per retry..."
            error := none
            started_at := none
            completed_at := none
            retry_count := some (recFailed2.retry_count.getD 0 + 1)
            updated_at := envA.now } ∧
      (retry_job_route envA jidA sFailed2).1.dispatched
        = sFailed2.dispatched ++ [jidA]) ∧
    (recFailed2.retry_count = some 3 →
      ∃ m, (retry_job_route envA jidA sFailed2).2
        = .error (.badRequest m)) :=
  C5_retry envA sFailed2 jidA jidA recFailed2 (by decide) (by decide)

/-! ## C9 -/

/-- **C9**: `delete` is legal from every state (no status is examined):
when the job exists it removes the persisted record, every path inside
the job's temp directory (the input artifact) and the result artifact;
when no job with that id exists it fails with `JobNotFound` and the
state is unchanged. -/
theorem C9_delete (env : Env) (s : SysState) (id : String) :
    (get_job s.db id = none →
      delete_job_q env id s = (s, .error (.jobNotFound id))) ∧
    (∀ r, get_job s.db id = some r →
      (delete_job_q env id s).2 = .ok () ∧
      (∀ x ∈ (delete_job_q env id s).1.db, x.id ≠ id) ∧
      (∀ p ∈ (delete_job_q env id s).1.fs,
        p ≠ env.tempDir ++ "/" ++ id ∧
        ¬ (env.tempDir ++ "/" ++ id ++ "/").isPrefixOf p) ∧
      (∀ rp, r.result_path = some rp →
        rp ∉ (delete_job_q env id s).1.fs)) := by
  constructor
  · intro hnone
    simp [delete_job_q, hnone]
  · intro r hr
    have hfs1 : ∀ p ∈ (delete_job_q env id s).1.fs,
        (!(p == env.tempDir ++ "/" ++ id ||
          (env.tempDir ++ "/" ++ id ++ "/").isPrefixOf p)) = true := by
      intro p hp
      rcases hres : r.result_path with _ | rp
      · simp only [delete_job_q, hr, hres] at hp
        exact (List.mem_filter.mp hp).2
      · simp only [delete_job_q, hr, hres] at hp
        exact (List.mem_filter.mp (List.mem_filter.mp hp).1).2
    refine ⟨by simp [delete_job_q, hr], ?_, ?_, ?_⟩
    · intro x hx
      simp only [delete_job_q, hr, delete_job_db] at hx
      have := (List.mem_filter.mp hx).2
      simpa using this
    · intro p hp
      have h := hfs1 p hp
      simp only [Bool.not_eq_eq_eq_not, Bool.not_true, Bool.or_eq_false_iff]
        at h
      refine ⟨?_, ?_⟩
      · intro hcontra
        rw [hcontra] at h
        simp at h
      · intro hcontra
        rw [h.2] at hcontra
        cases hcontra
    · intro rp hrp hmem
      simp only [delete_job_q, hr, hrp] at hmem
      have := (List.mem_filter.mp hmem).2
      simp at this

/-- **C9** (witness): deleting a missing job fails and changes nothing;
deleting the existing (still `pending`) job succeeds. -/
theorem C9_witness :
    delete_job_q envA "nope" sysEmpty
      = (sysEmpty, .error (.jobNotFound "nope")) ∧
    (delete_job_q envA jidA s_created).2 = .ok () :=
  ⟨(C9_delete envA sysEmpty "nope").1 (by decide),
   ((C9_delete envA s_created jidA).2 recA (by decide)).1⟩

/-! ## C10 -/

/-- An environment whose external parsers always fail, and a record all
of whose parsable fields are malformed. -/
def envBad : Env :=
  { envA with
      parseUuid := fun _ => none
      parseRfc3339 := fun _ => none }

/-- A malformed persisted record: unknown status and conversion type,
unparsable id and timestamps. -/
def recBad : JobRecord :=
  { recA with
      id := "not-a-uuid"
      status := "bogus-status"
      conversion_type := "bogus-type"
      created_at := "garbage"
      completed_at := some "garbage" }

/-- **C10** (counterexample): an unparsable `completed_at` timestamp does
*not* fall back to the current time — `job_from_record` drops it to
`None` (`.and_then(|s| parse(s).ok())`), unlike `created_at` which does
fall back to `Utc::now()`. -/
theorem C10_counterexample :
    recBad.completed_at = some "garbage" ∧
    envBad.parseRfc3339 "garbage" = none ∧
    (job_from_record envBad recBad).completed_at = none ∧
    (job_from_record envBad recBad).completed_at ≠ some envBad.now := by
  refine ⟨rfl, rfl, rfl, by decide⟩

/-- **C10** (amended): converting a persisted record totalizes every
malformed field silently — an unrecognized status string maps to
`Pending`, an unrecognized conversion-type string maps to `Image`, an
unparsable id is replaced by a fresh UUID, and an unparsable
`created_at` falls back to the current time — but an unparsable
`completed_at` is dropped to unset rather than falling back to now. -/
theorem C10_totalize (env : Env) (r : JobRecord) :
    (r.status ≠ "pending" → r.status ≠ "processing" →
      r.status ≠ "completed" → r.status ≠ "failed" →
      r.status ≠ "cancelled" →
      (job_from_record env r).status = .pending) ∧
    (r.conversion_type ≠ "image" → r.conversion_type ≠ "document" →
      r.conversion_type ≠ "audio" → r.conversion_type ≠ "video" →
      (job_from_record env r).conversion_type = .image) ∧
    (env.parseUuid r.id = none →
      (job_from_record env r).id = env.newUuid) ∧
    (env.parseRfc3339 r.created_at = none →
      (job_from_record env r).created_at = env.now) ∧
    (∀ ts, r.completed_at = some ts → env.parseRfc3339 ts = none →
      (job_from_record env r).completed_at = none) := by
  refine ⟨?_, ?_, ?_, ?_, ?_⟩
  · intro h1 h2 h3 h4 h5
    simp [job_from_record, status_from_str, h1, h2, h3, h4, h5]
  · intro h1 h2 h3 h4
    simp [job_from_record, conv_type_from_str, h1, h2, h3, h4]
  · intro h
    simp [job_from_record, h]
  · intro h
    simp [job_from_record, h]
  · intro ts hts h
    simp [job_from_record, hts, h]

/-- **C10** (witness for the amended theorem). -/
theorem C10_witness :
    (job_from_record envBad recBad).status = .pending ∧
    (job_from_record envBad recBad).conversion_type = .image ∧
    (job_from_record envBad recBad).id = envBad.newUuid ∧
    (job_from_record envBad recBad).created_at = envBad.now ∧
    (job_from_record envBad recBad).completed_at = none := by
  have h := C10_totalize envBad recBad
  exact ⟨h.1 (by decide) (by decide) (by decide) (by decide) (by decide),
    h.2.1 (by decide) (by decide) (by decide) (by decide),
    h.2.2.1 rfl, h.2.2.2.1 rfl, h.2.2.2.2 "garbage" rfl rfl⟩

/-! ## C6 -/

/-- **C6**: a successful dispatcher execution publishes exactly the fixed
checkpoints, in increasing order: `processing` 0 on entry, 10 after input
materialization, 30 once conversion begins, 80 once the result is
persisted, and `completed` 100 — all for the processed job id. -/
theorem C6_checkpoints (env : Env) (path id : String) (s : SysState)
    (hopen : env.semaphoreClosed = false)
    (hj : (get_job s.db id).isSome) :
    ((process_job env (.success path) id s).published.drop
        s.published.length).map (fun u => (u.status, u.progress))
      = [(.processing, 0), (.processing, 10), (.processing, 30),
         (.processing, 80), (.completed, 100)] ∧
    (∀ u ∈ (process_job env (.success path) id s).published.drop
        s.published.length, u.job_id = id) ∧
    List.Chain' (· < ·)
      (((process_job env (.success path) id s).published.drop
        s.published.length).map (fun u => u.progress)) := by
  have hs := process_job_published_success env path id s hopen hj
  rw [hs, List.drop_left]
  refine ⟨by simp [mkUpdate], ?_, by simp [mkUpdate, List.chain'_cons]⟩
  intro u hu
  simp [mkUpdate] at hu
  rcases hu with h | h | h | h | h <;> simp [h]

/-- **C6** (witness). -/
theorem C6_witness :
    ((process_job envA (.success "/tmp/out.jpg") jidA
        s_created).published.drop s_created.published.length).map
        (fun u => (u.status, u.progress))
      = [(.processing, 0), (.processing, 10), (.processing, 30),
         (.processing, 80), (.completed, 100)] ∧
    (∀ u ∈ (process_job envA (.success "/tmp/out.jpg") jidA
        s_created).published.drop s_created.published.length,
      u.job_id = jidA) ∧
    List.Chain' (· < ·)
      (((process_job envA (.success "/tmp/out.jpg") jidA
        s_created).published.drop s_created.published.length).map
        (fun u => u.progress)) :=
  C6_checkpoints envA "/tmp/out.jpg" jidA s_created (by decide) (by decide)

/-! ## C8 -/

/-- States reachable by the semaphore protocol from `initSem` keep the
permit count: available plus held permits always equal
`MAX_CONCURRENT_JOBS`. -/
theorem semReach_inv (s2 : SemState)
    (h : Relation.ReflTransGen SemStep initSem s2) :
    s2.available + s2.holding = MAX_CONCURRENT_JOBS := by
  induction h with
  | refl => rfl
  | tail hab step ih =>
    cases step with
    | acquire ht =>
      simp only [MAX_CONCURRENT_JOBS] at ih ⊢
      omega
    | release ht =>
      simp only [MAX_CONCURRENT_JOBS] at ih ⊢
      omega

/-- **C8**: the global semaphore has fixed size 10; every `process_job`
run (with the semaphore open, as it always is) acquires exactly one
permit before any job-status write and releases it as its very last
action on every exit path — the early return included; and under the
acquire/release protocol the number of concurrently held permits never
exceeds `MAX_CONCURRENT_JOBS`. -/
theorem C8_semaphore (env : Env) (conv : ConvOutcome) (id : String)
    (s : SysState) (hopen : env.semaphoreClosed = false)
    (hev : s.events = []) :
    MAX_CONCURRENT_JOBS = 10 ∧
    (∃ middle, (process_job env conv id s).events
        = Event.acquired :: middle ++ [Event.released] ∧
      ∀ e ∈ middle, ∃ i st, e = Event.statusWrite i st) ∧
    (∀ s2, Relation.ReflTransGen SemStep initSem s2 →
      s2.holding ≤ MAX_CONCURRENT_JOBS) := by
  refine ⟨rfl, ?_, ?_⟩
  · cases hg : get_job s.db id with
    | none =>
      refine ⟨[Event.statusWrite id "processing"], ?_, ?_⟩
      · simp only [process_job, get_job_q, mark_job_processing, dbUpdate,
          send_progress, hopen, Bool.false_eq_true, if_false]
        rw [get_job_after_update, hg]
        simp [hev]
      · intro e he
        simp at he
        exact ⟨_, _, he⟩
    | some r =>
      cases conv with
      | success path =>
        refine ⟨[Event.statusWrite id "processing",
          Event.statusWrite id "processing",
          Event.statusWrite id "processing",
          Event.statusWrite id "processing",
          Event.statusWrite id "completed"], ?_, ?_⟩
        · simp only [process_job, get_job_q, mark_job_processing,
            update_job_progress, mark_job_completed, dbUpdate,
            send_progress, hopen, Bool.false_eq_true, if_false]
          rw [get_job_after_update, hg]
          simp [hev]
          split <;> simp
        · intro e he
          simp at he
          rcases he with h | h <;> exact ⟨_, _, h⟩
      | failure e2 =>
        refine ⟨[Event.statusWrite id "processing",
          Event.statusWrite id "processing",
          Event.statusWrite id "processing",
          Event.statusWrite id "processing",
          Event.statusWrite id "failed"], ?_, ?_⟩
        · simp only [process_job, get_job_q, mark_job_processing,
            update_job_progress, mark_job_failed, dbUpdate,
            send_progress, hopen, Bool.false_eq_true, if_false]
          rw [get_job_after_update, hg]
          simp [hev]
          split <;> simp
        · intro e he
          simp at he
          rcases he with h | h <;> exact ⟨_, _, h⟩
  · intro s2 h
    have := semReach_inv s2 h
    simp only [MAX_CONCURRENT_JOBS] at this ⊢
    omega

/-- **C8** (witness). -/
theorem C8_witness :
    MAX_CONCURRENT_JOBS = 10 ∧
    (∃ middle,
        (process_job envA (.success "/tmp/out.jpg") jidA s_created).events
        = Event.acquired :: middle ++ [Event.released] ∧
      ∀ e ∈ middle, ∃ i st, e = Event.statusWrite i st) ∧
    (∀ s2, Relation.ReflTransGen SemStep initSem s2 →
      s2.holding ≤ MAX_CONCURRENT_JOBS) :=
  C8_semaphore envA (.success "/tmp/out.jpg") jidA s_created
    (by decide) (by decide)

end Converty
